import Mathlib

/-!
Verification of the wait/retry/validator core of the popup test-automation
repository.  The Python modules `pages/base_page.py`, `pages/popup_page.py`,
`pages/data_manager.py` and `run_tests.py` are shallowly embedded: every
fallible browser-driver call is replaced by an explicit outcome value drawn
from the error taxonomy the Selenium library exposes (all driver errors derive
from WebDriverException; the specific subclasses distinguished by the code are
TimeoutException, StaleElementReferenceException and NoSuchElementException),
and each embedded function reproduces the branch structure of its source
function over those outcomes.
-/

namespace TestAutomation

/-- Exception taxonomy of the embedded code.  `timeout`, `staleElement`,
`noSuchElement` and `webdriver` stand for the Selenium exception classes
(the first three are subclasses of the fourth); `interaction` and `notFound`
are the custom `ElementInteractionException` / `ElementNotFoundException`
from `base_page.py`; `valueError`, `typeError` and `attributeError` are the
Python built-ins the code can raise. -/
inductive PyErr where
  | timeout (msg : String)
  | staleElement (msg : String)
  | noSuchElement (msg : String)
  | webdriver (msg : String)
  | interaction (msg : String)
  | notFound (msg : String)
  | valueError (msg : String)
  | typeError (msg : String)
  | attributeError (msg : String)
  deriving Repr, DecidableEq

/-- `str(e)` on an exception: the message the handlers record. -/
def errText : PyErr → String
  | .timeout m => m
  | .staleElement m => m
  | .noSuchElement m => m
  | .webdriver m => m
  | .interaction m => m
  | .notFound m => m
  | .valueError m => m
  | .typeError m => m
  | .attributeError m => m

namespace BasePage

/-- Result of one invocation of the function wrapped by `retry_on_failure`:
it either returns a value or raises an exception. -/
inductive Outcome (α : Type) where
  | ok (a : α)
  | exn (e : PyErr)
  deriving Repr, DecidableEq

/-- The default `exceptions` tuple of `retry_on_failure`:
`(TimeoutException, StaleElementReferenceException)`. -/
def defaultTransient : PyErr → Bool
  | .timeout _ => true
  | .staleElement _ => true
  | _ => false

/-- Observable trace of one run of the `wrapper` closure produced by
`retry_on_failure`: the final result (returned value or raised exception),
how many times the wrapped function was invoked, and how many times
`time.sleep(delay)` ran. -/
structure RetryTrace (α : Type) where
  result : Except PyErr α
  invocations : Nat
  sleeps : Nat
  deriving Repr

/-- The `for attempt in range(max_attempts)` loop of `retry_on_failure`
(`base_page.py` lines 86-97), starting at attempt index `i` with `r`
iterations remaining.  `out k` is the outcome of the `k`-th invocation of the
wrapped function and `tr` is membership in the `exceptions` tuple.  A caught
transient error sleeps and continues unless the attempt was the last one, in
which case the loop breaks and re-raises it; a non-transient error propagates
at once.  The `r = 0` base case is reached only when `max_attempts = 0`, where
the Python code executes `raise last_exception` with `last_exception = None`,
a `TypeError`. -/
def retryAux (tr : PyErr → Bool) (out : Nat → Outcome α) : Nat → Nat → RetryTrace α
  | _, 0 => ⟨.error (.typeError "exceptions must derive from BaseException"), 0, 0⟩
  | i, r + 1 =>
    match out i with
    | .ok a => ⟨.ok a, 1, 0⟩
    | .exn e =>
      if tr e then
        if r = 0 then ⟨.error e, 1, 0⟩
        else
          let t := retryAux tr out (i + 1) r
          ⟨t.result, t.invocations + 1, t.sleeps + 1⟩
      else ⟨.error e, 1, 0⟩

/-- `retry_on_failure(max_attempts, delay, exceptions)` applied to a function
whose successive invocation outcomes are `out 0, out 1, ...`. -/
def retry_on_failure (maxAttempts : Nat) (tr : PyErr → Bool)
    (out : Nat → Outcome α) : RetryTrace α :=
  retryAux tr out 0 maxAttempts

/-- Outcome of the `WebDriverWait(...).until(visibility_of_element_located)`
call inside `is_element_visible`: the element becomes visible within the
timeout, the wait times out (`TimeoutException`), or the underlying driver
raises some other exception during polling, which the wait propagates. -/
inductive VisibilityWaitOutcome where
  | visible
  | timedOut
  | raised (e : PyErr)
  deriving Repr, DecidableEq

/-- `BasePage.is_element_visible` (`base_page.py` lines 316-346): returns
`True` when the wait succeeds; the `except TimeoutException` handler returns
`False`; any other exception is not handled and propagates to the caller. -/
def is_element_visible : VisibilityWaitOutcome → Except PyErr Bool
  | .visible => .ok true
  | .timedOut => .ok false
  | .raised e => .error e

/-- Whether an embedded call returned normally (did not raise). -/
def isOkB : Except PyErr Bool → Bool
  | .ok _ => true
  | .error _ => false

/-- `actual_timeout = timeout or self.default_timeout`: Python truthiness
keeps a caller-supplied non-zero timeout and substitutes the default for
`None` (and for `0`). -/
def effectiveTimeout (timeout : Option Nat) (default : Nat) : Nat :=
  match timeout with
  | none => default
  | some t => if t = 0 then default else t

end BasePage

namespace PopupPage

/-- The `_popup_state` dictionary of `PopupPage` (`popup_page.py` lines
72-77), with the keys the code reads and writes through
`_update_popup_state`.  The `timestamp` and nested `performance_metrics`
entries are not modeled (no claim mentions them); `last_success` is absent
until the first update, hence `Option Bool`. -/
structure PopupState where
  is_visible : Bool
  last_action : Option String
  last_success : Option Bool
  error_count : Nat
  error : Option String
  reason : Option String
  method : Option String
  email : Option String
  deriving Repr, DecidableEq

/-- The state at construction time (`__init__`). -/
def initialPopupState : PopupState :=
  ⟨false, none, none, 0, none, none, none, none⟩

/-- The `**kwargs` of one `_update_popup_state` call: the optional extra keys
the call supplies.  A key not supplied keeps its previous value, because
`dict.update` only overwrites the keys present in its argument. -/
structure StateKw where
  is_visible : Option Bool
  error : Option String
  reason : Option String
  method : Option String
  email : Option String
  deriving Repr, DecidableEq

def noKw : StateKw := ⟨none, none, none, none, none⟩

def errKw (m : String) : StateKw := ⟨none, some m, none, none, none⟩

def reasonKw (r : String) : StateKw := ⟨none, none, some r, none, none⟩

def methodKw (m : String) : StateKw := ⟨none, none, none, some m, none⟩

def emailKw (e : String) : StateKw := ⟨none, none, none, none, some e⟩

def isVisKw (b : Bool) : StateKw := ⟨some b, none, none, none, none⟩

def optOr (a b : Option α) : Option α :=
  match a with
  | some x => some x
  | none => b

/-- `PopupPage._update_popup_state` (`popup_page.py` lines 79-96): always
overwrites `last_action` and `last_success`, merges the keyword arguments,
and increments `error_count` exactly when `success` is false. -/
def _update_popup_state (st : PopupState) (action : String) (success : Bool)
    (kw : StateKw) : PopupState :=
  let st1 : PopupState :=
    { is_visible := match kw.is_visible with | some b => b | none => st.is_visible,
      last_action := some action,
      last_success := some success,
      error_count := st.error_count,
      error := optOr kw.error st.error,
      reason := optOr kw.reason st.reason,
      method := optOr kw.method st.method,
      email := optOr kw.email st.email }
  if success then st1 else { st1 with error_count := st1.error_count + 1 }

/-- Effective outcome of one `BasePage.click_element` call.  Under the
Selenium error contract (every driver error derives from WebDriverException),
`click_element` either returns `True` or raises `ElementInteractionException`:
its handlers convert both a clickability timeout and any WebDriverException
into that exception, and the retry decorator re-raises it unchanged. -/
inductive ClickOutcome where
  | clicked
  | interactionErr (msg : String)
  deriving Repr, DecidableEq

/-- Outcome of one `BasePage.is_element_present` probe: `driver.find_element`
finds the element, raises `NoSuchElementException` (caught, probe returns
`False`), or raises some other driver error, which the probe propagates. -/
inductive PresenceOutcome where
  | found
  | missing
  | raised (e : PyErr)
  deriving Repr, DecidableEq

/-- Outcome of the coordinate-click fallback
(`driver.get_window_size` plus `driver.execute_script`). -/
inductive ScriptOutcome where
  | ran
  | raised (e : PyErr)
  deriving Repr, DecidableEq

/-- `PopupPage.click_show_instantly_button` (`popup_page.py` lines 235-254):
records `trigger_popup` with the click result, converting an
`ElementInteractionException` into a `False` return with an `error` entry. -/
def click_show_instantly_button (st : PopupState) (o : ClickOutcome) :
    PopupState × Bool :=
  match o with
  | .clicked => (_update_popup_state st "trigger_popup" true noKw, true)
  | .interactionErr m =>
      (_update_popup_state st "trigger_popup" false (errKw m), false)

/-- `PopupPage.click_close_button` (`popup_page.py` lines 333-352). -/
def click_close_button (st : PopupState) (o : ClickOutcome) :
    PopupState × Bool :=
  match o with
  | .clicked => (_update_popup_state st "click_close" true noKw, true)
  | .interactionErr m =>
      (_update_popup_state st "click_close" false (errKw m), false)

/-- `PopupPage.dismiss_popup` (`popup_page.py` lines 207-231): probes for the
close button with `is_element_present`; if present, clicks it (converting an
`ElementInteractionException` into `False` with an `error` entry); if absent,
records `no_close_button` and returns `False`.  A driver error other than
`NoSuchElementException` raised by the probe is not an
`ElementInteractionException`, so it escapes the method before any
`_update_popup_state` call runs. -/
def dismiss_popup (st : PopupState) (p : PresenceOutcome) (o : ClickOutcome) :
    PopupState × Except PyErr Bool :=
  match p with
  | .found =>
    match o with
    | .clicked => (_update_popup_state st "dismiss" true noKw, .ok true)
    | .interactionErr m =>
        (_update_popup_state st "dismiss" false (errKw m), .ok false)
  | .missing =>
      (_update_popup_state st "dismiss" false (reasonKw "no_close_button"), .ok false)
  | .raised e => (st, .error e)

/-- `PopupPage.click_outside_popup` (`popup_page.py` lines 391-421): clicks
the backdrop when present, otherwise falls back to a coordinate click via
`execute_script`; its `except Exception` handler catches every failure
(including a probe error) and records it, so the call never raises. -/
def click_outside_popup (st : PopupState) (p : PresenceOutcome)
    (o : ClickOutcome) (s : ScriptOutcome) : PopupState × Bool :=
  match p with
  | .found =>
    match o with
    | .clicked => (_update_popup_state st "click_outside" true noKw, true)
    | .interactionErr m =>
        (_update_popup_state st "click_outside" false (errKw m), false)
  | .missing =>
    match s with
    | .ran =>
        (_update_popup_state st "click_outside" true (methodKw "coordinates"), true)
    | .raised e =>
        (_update_popup_state st "click_outside" false (errKw (errText e)), false)
  | .raised e =>
      (_update_popup_state st "click_outside" false (errKw (errText e)), false)

/-- The whitespace set `str.strip()` removes: space, tab, newline, carriage
return, vertical tab, form feed. -/
def isPySpace (c : Char) : Bool :=
  c = ' ' || c = '\t' || c = '\n' || c = '\r' || c = Char.ofNat 11 || c = Char.ofNat 12

def pyStripList (cs : List Char) : List Char :=
  ((cs.dropWhile isPySpace).reverse.dropWhile isPySpace).reverse

/-- Python `str.strip()` with no argument. -/
def pyStrip (s : String) : String :=
  ⟨pyStripList s.toList⟩

/-- The character class of the local part of the email pattern. -/
def isLocalChar (c : Char) : Bool :=
  c.isAlpha || c.isDigit || c = '.' || c = '_' || c = '%' || c = '+' || c = '-'

/-- The character class of the domain part. -/
def isDomainChar (c : Char) : Bool :=
  c.isAlpha || c.isDigit || c = '.' || c = '-'

/-- Whether the suffix after the `@` matches the regex, that is, splits as a
nonempty domain-character run, a literal dot, and at least two letters
running to the end of the string. -/
def domainTldMatch (cs : List Char) : Bool :=
  (List.range cs.length).any fun i =>
    decide (0 < i) && (cs.take i).all isDomainChar && (cs.getD i ' ' == '.') &&
      (cs.drop (i + 1)).all Char.isAlpha && decide (2 ≤ (cs.drop (i + 1)).length)

/-- Anchored match of the body of the email pattern.  Because `@` is not a
local-part character, a match forces the local part to be the maximal
local-character prefix. -/
def emailCoreMatch (cs : List Char) : Bool :=
  decide (0 < (cs.takeWhile isLocalChar).length) &&
    (match cs.dropWhile isLocalChar with
     | '@' :: rest => domainTldMatch rest
     | _ => false)

/-- `re.match` of the pattern against a whole string.  Python `$` also
matches just before one trailing newline, hence the second disjunct. -/
def reMatchEmail (s : String) : Bool :=
  emailCoreMatch s.toList ||
    (match s.toList.getLast? with
     | some c => c == '\n' && emailCoreMatch s.toList.dropLast
     | none => false)

/-- A Python value passed as the `email` argument: a string, `None`, or an
object of some non-string type. -/
inductive PyValue where
  | pyStr (s : String)
  | pyNone
  | pyOther
  deriving Repr, DecidableEq

/-- `PopupPage._is_valid_email` (`popup_page.py` lines 478-493): `None`,
non-strings and the empty string are falsy and rejected up front; otherwise
the argument is stripped and matched against the anchored pattern. -/
def _is_valid_email : PyValue → Bool
  | .pyStr s => if s = "" then false else reMatchEmail (pyStrip s)
  | .pyNone => false
  | .pyOther => false

/-- Effective outcome of the `send_keys_to_element` call inside `enter_email`:
the keys are sent (returns `True`); a driver error during clear/send is
wrapped into `ElementInteractionException` (which `enter_email` records and
re-raises); or the inner `find_element` times out and raises
`ElementNotFoundException`, which neither `send_keys_to_element` nor
`enter_email` catches. -/
inductive EnterOutcome where
  | entered
  | interactionErr (msg : String)
  | notFoundErr (msg : String)
  deriving Repr, DecidableEq

/-- `PopupPage.enter_email` (`popup_page.py` lines 151-181): raises
`ValueError` for falsy or non-string input and for an invalid format; on an
`ElementInteractionException` it records the failure and re-raises; an
`ElementNotFoundException` escapes without a state update. -/
def enter_email (st : PopupState) (email : PyValue) (o : EnterOutcome) :
    PopupState × Except PyErr Bool :=
  match email with
  | .pyStr s =>
    if s = "" then (st, .error (.valueError "Email must be a non-empty string"))
    else if _is_valid_email (.pyStr s) = false then
      (st, .error (.valueError ("Invalid email format: " ++ s)))
    else
      match o with
      | .entered => (_update_popup_state st "enter_email" true (emailKw s), .ok true)
      | .interactionErr m =>
          (_update_popup_state st "enter_email" false (errKw m), .error (.interaction m))
      | .notFoundErr m => (st, .error (.notFound m))
  | .pyNone => (st, .error (.valueError "Email must be a non-empty string"))
  | .pyOther => (st, .error (.valueError "Email must be a non-empty string"))

/-- `PopupPage.is_popup_visible` (`popup_page.py` lines 102-121): delegates to
`BasePage.is_element_visible`, records `check_visibility` with success `True`
and the observed visibility, and converts any escaping exception into a
`False` return with an `error` entry.  Never raises. -/
def is_popup_visible (st : PopupState) (w : BasePage.VisibilityWaitOutcome) :
    PopupState × Bool :=
  match BasePage.is_element_visible w with
  | .ok b => (_update_popup_state st "check_visibility" true (isVisKw b), b)
  | .error e =>
      (_update_popup_state st "check_visibility" false (errKw (errText e)), false)

/-- `PopupPage.wait_for_popup_to_appear` (`popup_page.py` lines 123-149).
Never raises. -/
def wait_for_popup_to_appear (st : PopupState) (w : BasePage.VisibilityWaitOutcome) :
    PopupState × Bool :=
  match BasePage.is_element_visible w with
  | .ok true => (_update_popup_state st "wait_appear" true noKw, true)
  | .ok false => (_update_popup_state st "wait_appear" false (reasonKw "timeout"), false)
  | .error e =>
      (_update_popup_state st "wait_appear" false (errKw (errText e)), false)

/-- `PopupPage.click_submit_button` (`popup_page.py` lines 183-205): records
the outcome and re-raises an `ElementInteractionException`. -/
def click_submit_button (st : PopupState) (o : ClickOutcome) :
    PopupState × Except PyErr Bool :=
  match o with
  | .clicked => (_update_popup_state st "click_submit" true noKw, .ok true)
  | .interactionErr m =>
      (_update_popup_state st "click_submit" false (errKw m), .error (.interaction m))

/-- The browser sub-steps `submit_email_form` can attempt, in source order. -/
inductive SubStep where
  | waitPopup
  | checkVisible
  | enterEmail
  | clickSubmit
  deriving Repr, DecidableEq

/-- Outcomes of the sub-calls of one `submit_email_form` run. -/
structure SubmitOracle where
  waitOutcome : BasePage.VisibilityWaitOutcome
  visOutcome : BasePage.VisibilityWaitOutcome
  enter : EnterOutcome
  submit : ClickOutcome
  deriving Repr, DecidableEq

def pyEmailKw : PyValue → StateKw
  | .pyStr s => emailKw s
  | .pyNone => noKw
  | .pyOther => noKw

/-- Tail of `submit_email_form` after a successful email entry: the
`click_submit_button` step; an escaping exception is caught by the method
`except Exception` handler. -/
def submitAfterEnter (st : PopupState) (email : PyValue) (o : SubmitOracle)
    (tr : List SubStep) : PopupState × Bool × List SubStep :=
  match click_submit_button st o.submit with
  | (st2, .error e) =>
      (_update_popup_state st2 "submit_form" false (errKw (errText e)), false,
        tr ++ [SubStep.clickSubmit])
  | (st2, .ok false) =>
      (_update_popup_state st2 "submit_form" false (reasonKw "submit_click_failed"),
        false, tr ++ [SubStep.clickSubmit])
  | (st2, .ok true) =>
      (_update_popup_state st2 "submit_form" true (pyEmailKw email), true,
        tr ++ [SubStep.clickSubmit])

/-- Tail of `submit_email_form` after the visibility check: the `enter_email`
step (the `.ok false` branch mirrors the `if not self.enter_email(...)` test
in the source even though `enter_email` only returns `True` or raises). -/
def submitAfterVisible (st : PopupState) (email : PyValue) (o : SubmitOracle)
    (tr : List SubStep) : PopupState × Bool × List SubStep :=
  match enter_email st email o.enter with
  | (st2, .error e) =>
      (_update_popup_state st2 "submit_form" false (errKw (errText e)), false,
        tr ++ [SubStep.enterEmail])
  | (st2, .ok false) =>
      (_update_popup_state st2 "submit_form" false (reasonKw "email_entry_failed"),
        false, tr ++ [SubStep.enterEmail])
  | (st2, .ok true) => submitAfterEnter st2 email o (tr ++ [SubStep.enterEmail])

/-- Tail of `submit_email_form` after the optional popup wait: the
`is_popup_visible` check. -/
def submitAfterWait (st : PopupState) (email : PyValue) (o : SubmitOracle)
    (tr : List SubStep) : PopupState × Bool × List SubStep :=
  if (is_popup_visible st o.visOutcome).2 = false then
    (_update_popup_state (is_popup_visible st o.visOutcome).1 "submit_form" false
      (reasonKw "popup_not_visible"), false, tr ++ [SubStep.checkVisible])
  else
    submitAfterVisible (is_popup_visible st o.visOutcome).1 email o
      (tr ++ [SubStep.checkVisible])

/-- `PopupPage.submit_email_form` (`popup_page.py` lines 423-476): validates
the email, optionally waits for the popup, checks visibility, enters the
email and clicks submit, returning `False` with a recorded reason at the
first failed sub-step; the third component lists the browser sub-steps the
run attempted. -/
def submit_email_form (st : PopupState) (email : PyValue) (wait_for_popup : Bool)
    (o : SubmitOracle) : PopupState × Bool × List SubStep :=
  if _is_valid_email email = false then
    (_update_popup_state st "submit_form" false (reasonKw "invalid_email"), false, [])
  else if wait_for_popup then
    if (wait_for_popup_to_appear st o.waitOutcome).2 = false then
      (_update_popup_state (wait_for_popup_to_appear st o.waitOutcome).1
        "submit_form" false (reasonKw "popup_not_appeared"), false, [SubStep.waitPopup])
    else
      submitAfterWait (wait_for_popup_to_appear st o.waitOutcome).1 email o
        [SubStep.waitPopup]
  else
    submitAfterWait st email o []

/-- One lifecycle call of claim C4, with the outcomes of its driver
interactions. -/
inductive PopupCall where
  | trigger (o : ClickOutcome)
  | close (o : ClickOutcome)
  | dismiss (p : PresenceOutcome) (o : ClickOutcome)
  | outside (p : PresenceOutcome) (o : ClickOutcome) (s : ScriptOutcome)
  deriving Repr, DecidableEq

/-- The popup state after one lifecycle call (unchanged when the call
escapes with an exception). -/
def popupCallRun (st : PopupState) : PopupCall → PopupState
  | .trigger o => (click_show_instantly_button st o).1
  | .close o => (click_close_button st o).1
  | .dismiss p o => (dismiss_popup st p o).1
  | .outside p o s => (click_outside_popup st p o s).1

/-- The `success` value the call passes to `_update_popup_state`, or `none`
when the call raises before reaching any update. -/
def popupCallRecorded : PopupCall → Option Bool
  | .trigger .clicked => some true
  | .trigger (.interactionErr _) => some false
  | .close .clicked => some true
  | .close (.interactionErr _) => some false
  | .dismiss .found .clicked => some true
  | .dismiss .found (.interactionErr _) => some false
  | .dismiss .missing _ => some false
  | .dismiss (.raised _) _ => none
  | .outside .found .clicked _ => some true
  | .outside .found (.interactionErr _) _ => some false
  | .outside .missing _ .ran => some true
  | .outside .missing _ (.raised _) => some false
  | .outside (.raised _) _ _ => some false

/-- The `action` string a lifecycle call records. -/
def callActionName : PopupCall → String
  | .trigger _ => "trigger_popup"
  | .close _ => "click_close"
  | .dismiss _ _ => "dismiss"
  | .outside _ _ _ => "click_outside"


end PopupPage

/-- Ordered string-keyed association list (insert keeps first-seen key order,
overwriting in place), modeling a Python dict. -/
def aset (d : List (String × β)) (k : String) (v : β) : List (String × β) :=
  match d with
  | [] => [(k, v)]
  | (k0, v0) :: rest => if k0 = k then (k0, v) :: rest else (k0, v0) :: aset rest k v

def aget (d : List (String × β)) (k : String) : Option β :=
  match d with
  | [] => none
  | (k0, v0) :: rest => if k0 = k then some v0 else aget rest k

/-- Python `round(x, 2)`: round to the nearest multiple of 1/100, ties to the
even multiple (times are modeled as exact rationals). -/
def round2 (x : ℚ) : ℚ :=
  let f : ℚ := x * 100
  let n : ℤ := ⌊f⌋
  let frac : ℚ := f - n
  let r : ℤ :=
    if frac > 1 / 2 then n + 1
    else if frac < 1 / 2 then n
    else if n % 2 = 0 then n else n + 1
  (r : ℚ) / 100

/-- Fixed-precision decimal rendering of a rational, standing in for the
f-string interpolation of a float inside conclusion strings (no claim
depends on the exact digits). -/
def ratDecimalStr (x : ℚ) : String :=
  let sign := if x < 0 then "-" else ""
  let a : ℚ := |x|
  let ip : ℕ := (⌊a⌋).toNat
  let cents : ℕ := (⌊a * 100⌋).toNat % 100
  sign ++ toString ip ++ "." ++ (if cents < 10 then "0" else "") ++ toString cents

namespace DataManager

/-- A value stored in a verdict `details` dict. -/
inductive DetVal where
  | b (v : Bool)
  | s (v : String)
  | n (v : Int)
  | q (v : ℚ)
  deriving Repr, DecidableEq

/-- The `results` dictionary each validator builds (`data_manager.py`):
`bug_id`, `description`, a `reproduced` flag defaulting to `False`, and an
ordered `details` map. -/
structure BugVerdict where
  bug_id : String
  description : String
  reproduced : Bool
  details : List (String × DetVal)
  deriving Repr, DecidableEq

/-- The mutable fields of a `DataManager` instance the validators write:
the `bug_reproductions` map keyed by bug id and the `performance_metrics`
map. -/
structure DataManagerState where
  bug_reproductions : List (String × BugVerdict)
  performance_metrics : List (String × ℚ)
  deriving Repr, DecidableEq

def initialDMState : DataManagerState := ⟨[], []⟩

/-- The `except Exception` clause shared by every validator: when an
exception was caught, `str(e)` is recorded under `details["error"]` on the
partially built verdict. -/
def applyExc (v : BugVerdict) : Option PyErr → BugVerdict
  | some e => { v with details := aset v.details "error" (.s (errText e)) }
  | none => v

/-- Outcome of one `DataManager.is_element_present` / `is_element_visible`
probe (`data_manager.py` lines 30-64): the wait succeeds, times out
(`TimeoutException` caught, `False` returned), or raises some other driver
error, which these helpers do not catch. -/
inductive ProbeOutcome where
  | found
  | timedOut
  | raised (e : PyErr)
  deriving Repr, DecidableEq

def probeRes : ProbeOutcome → Except PyErr Bool
  | .found => .ok true
  | .timedOut => .ok false
  | .raised e => .error e

/-- Driver behaviour one `validate_bug_001_url_dependency` run can observe:
each `driver.get` either returns or raises, and each trigger-button presence
probe has a `ProbeOutcome`. -/
structure Bug001Oracle where
  getBase : Option PyErr
  presentBase : ProbeOutcome
  getTest : Option PyErr
  presentTest : ProbeOutcome
  deriving Repr, DecidableEq

def bug001_init : BugVerdict :=
  ⟨"BUG001", "URL parameter dependency", false, []⟩

/-- The `try` block of `validate_bug_001_url_dependency` (`data_manager.py`
lines 105-153): returns the verdict as built so far together with the
exception that escaped the steps, if any. -/
def bug001_body (o : Bug001Oracle) : BugVerdict × Option PyErr :=
  match o.getBase with
  | some e => (bug001_init, some e)
  | none =>
    match probeRes o.presentBase with
    | .error e => (bug001_init, some e)
    | .ok f1 =>
      let r1 := { bug001_init with
        details := aset bug001_init.details "base_url_functional" (.b f1) }
      match o.getTest with
      | some e => (r1, some e)
      | none =>
        match probeRes o.presentTest with
        | .error e => (r1, some e)
        | .ok f2 =>
          let r2 := { r1 with details := aset r1.details "test_url_functional" (.b f2) }
          if f1 = false && f2 = true then
            let d := aset r2.details "conclusion"
              (.s "System only works with specific URL parameters")
            ({ r2 with reproduced := true, details := d }, none)
          else if f1 && f2 then
            let d := aset r2.details "conclusion"
              (.s "System works with both URLs - Bug may be fixed")
            ({ r2 with reproduced := false, details := d }, none)
          else
            let d := aset r2.details "conclusion"
              (.s "System not functional with either URL")
            ({ r2 with details := d }, none)

def validate_bug_001 (st : DataManagerState) (o : Bug001Oracle) :
    DataManagerState × BugVerdict :=
  let v := applyExc (bug001_body o).1 (bug001_body o).2
  ({ st with bug_reproductions := aset st.bug_reproductions "BUG001" v }, v)

/-- Driver behaviour one `validate_bug_002_add_to_cart` run can observe.
`initialCount` / `finalCount` are the `_get_cart_count` results (that helper
swallows every per-locator error and falls back to 0, so it never raises);
`trigger` is the `click_show_instantly_button` return (that method converts
every driver failure into `False`); `vis0`-`vis3` are the visibility probes
of the four Add-to-Cart locators; `click` is the `click_element` outcome at
the first visible locator (`none` means the click succeeded). -/
structure Bug002Oracle where
  initialCount : Nat
  trigger : Bool
  vis0 : ProbeOutcome
  vis1 : ProbeOutcome
  vis2 : ProbeOutcome
  vis3 : ProbeOutcome
  click : Option PyErr
  finalCount : Nat
  deriving Repr, DecidableEq

/-- The `for locator in add_to_cart_locators` loop of
`validate_bug_002_add_to_cart` (`data_manager.py` lines 190-219): stops at
the first visible locator and tries the click there; a `TimeoutException`
from the click is caught in the loop (button not clickable, reproduced); any
other error escapes to the outer handler. -/
def bug002_scan (o : Bug002Oracle) (v : BugVerdict) :
    List ProbeOutcome → BugVerdict × Option PyErr
  | [] =>
      let d := aset (aset v.details "add_to_cart_button_found" (.b false))
        "conclusion" (.s "Add to Cart button not found in popup")
      ({ v with details := d }, none)
  | p :: rest =>
    match probeRes p with
    | .error e => (v, some e)
    | .ok false => bug002_scan o v rest
    | .ok true =>
      let v1 := { v with details := aset v.details "add_to_cart_button_found" (.b true) }
      match o.click with
      | some (.timeout _) =>
          let d := aset v1.details "conclusion" (.s "Add to Cart button not clickable")
          ({ v1 with reproduced := true, details := d }, none)
      | some e => (v1, some e)
      | none =>
        let v2 := { v1 with
          details := aset v1.details "final_cart_count" (.n (o.finalCount : Int)) }
        if o.finalCount > o.initialCount then
          let d := aset v2.details "conclusion" (.s "Add to Cart working - Bug may be fixed")
          ({ v2 with reproduced := false, details := d }, none)
        else
          let d := aset v2.details "conclusion" (.s "Add to Cart button not functional")
          ({ v2 with reproduced := true, details := d }, none)

/-- The `try` block of `validate_bug_002_add_to_cart` (`data_manager.py`
lines 155-224). -/
def bug002_body (o : Bug002Oracle) : BugVerdict × Option PyErr :=
  let v0 : BugVerdict := ⟨"BUG002", "Add to Cart button not working", false,
    [("initial_cart_count", .n (o.initialCount : Int))]⟩
  if o.trigger then bug002_scan o v0 [o.vis0, o.vis1, o.vis2, o.vis3]
  else
    let d := aset v0.details "conclusion" (.s "Could not trigger popup to test Add to Cart")
    ({ v0 with details := d }, none)

def validate_bug_002 (st : DataManagerState) (o : Bug002Oracle) :
    DataManagerState × BugVerdict :=
  let v := applyExc (bug002_body o).1 (bug002_body o).2
  ({ st with bug_reproductions := aset st.bug_reproductions "BUG002" v }, v)

/-- Observable behaviour of one `validate_bug_006_performance` run:
`trigger` is the `click_show_instantly_button` return, `appeared` the
`wait_for_popup_to_appear` return (both convert driver failures into
booleans, so under the Selenium error contract no exception can surface in
this validator), and `loadTime` the elapsed `end_time - start_time`. -/
structure Bug006Oracle where
  trigger : Bool
  appeared : Bool
  loadTime : ℚ
  deriving Repr, DecidableEq

/-- The `try` block of `validate_bug_006_performance` (`data_manager.py`
lines 229-273); the second component is the measured load time to store
under `performance_metrics["popup_load_time"]`, when measured. -/
def bug006_body (o : Bug006Oracle) (expected_limit : ℚ) : BugVerdict × Option ℚ :=
  let v0 : BugVerdict := ⟨"BUG006", "Performance Critical - Load delay", false, []⟩
  if o.trigger then
    let lt := o.loadTime
    let d3 := aset (aset (aset v0.details "load_time" (.q (round2 lt)))
      "expected_limit" (.q expected_limit)) "popup_appeared" (.b o.appeared)
    if lt > expected_limit then
      let d := aset d3 "conclusion" (.s ("Performance issue confirmed: " ++
        ratDecimalStr lt ++ "s > " ++ ratDecimalStr expected_limit ++ "s"))
      ({ v0 with reproduced := true, details := d }, some lt)
    else
      let d := aset d3 "conclusion" (.s ("Performance acceptable: " ++
        ratDecimalStr lt ++ "s <= " ++ ratDecimalStr expected_limit ++ "s"))
      ({ v0 with reproduced := false, details := d }, some lt)
  else
    let d := aset v0.details "conclusion" (.s "Could not trigger popup to measure performance")
    ({ v0 with details := d }, none)

def validate_bug_006 (st : DataManagerState) (o : Bug006Oracle)
    (expected_limit : ℚ) : DataManagerState × BugVerdict :=
  let v := (bug006_body o expected_limit).1
  let st1 :=
    match (bug006_body o expected_limit).2 with
    | some lt => { st with
        performance_metrics := aset st.performance_metrics "popup_load_time" lt }
    | none => st
  ({ st1 with bug_reproductions := aset st1.bug_reproductions "BUG006" v }, v)

/-- `validate_bug_006_performance` with its default `expected_limit=2.0`. -/
def validate_bug_006_default (st : DataManagerState) (o : Bug006Oracle) :
    DataManagerState × BugVerdict :=
  validate_bug_006 st o 2

def lpre : List Char → List Char → Bool
  | [], _ => true
  | _ :: _, [] => false
  | a :: as, b :: bs => a == b && lpre as bs

/-- Python substring containment `needle in hay`. -/
def containsSub (needle hay : List Char) : Bool :=
  (List.range (hay.length + 1)).any fun i => lpre needle (hay.drop i)

def toLowerStr (s : String) : String :=
  ⟨s.toList.map Char.toLower⟩

/-- `expected.lower() in text.lower()`. -/
def strHasLower (hay needle : String) : Bool :=
  containsSub (toLowerStr needle).toList (toLowerStr hay).toList

/-- Observable behaviour of one `validate_bug_007_content_mapping` run.
`pageTitle` is the `product_page.get_page_title_text()` call, which no page
class defines, so with the shipped `ProductPage` it raises `AttributeError`
(the oracle also admits a mock that returns a string).  `popupContent` and
`popupTitle` are the `get_popup_content_text` / `get_popup_title` calls:
those getters swallow only `ElementInteractionException` (returning the
empty string), but the `ElementNotFoundException` that `find_element` raises
when the element never becomes visible is caught neither by
`get_element_text` (which handles only `TimeoutException` /
`WebDriverException`) nor by the getters, so each call either returns a
string or propagates such an exception. -/
structure Bug007Oracle where
  pageTitle : Except PyErr String
  trigger : Bool
  popupContent : Except PyErr String
  popupTitle : Except PyErr String
  deriving Repr

/-- The `try` block of `validate_bug_007_content_mapping` (`data_manager.py`
lines 281-339).  Inside the trigger branch the content getter runs first and
the title getter second, both before any `popup_*` detail assignment, so an
exception from either one leaves only `page_title` recorded. -/
def bug007_body (o : Bug007Oracle) (expected_product : String) :
    BugVerdict × Option PyErr :=
  let v0 : BugVerdict :=
    ⟨"BUG007", "Content Critical - Incorrect product mapping", false, []⟩
  match o.pageTitle with
  | .error e => (v0, some e)
  | .ok pt =>
    let v1 := { v0 with details := aset v0.details "page_title" (.s pt) }
    if o.trigger then
      match o.popupContent with
      | .error e => (v1, some e)
      | .ok pc =>
        match o.popupTitle with
        | .error e => (v1, some e)
        | .ok ptl =>
          let pageHas := strHasLower pt expected_product
          let popupHas := strHasLower pc expected_product ||
            strHasLower ptl expected_product
          let d := aset (aset (aset (aset (aset v1.details
            "popup_content" (.s pc))
            "popup_title" (.s ptl))
            "expected_product" (.s expected_product))
            "page_has_expected_product" (.b pageHas))
            "popup_has_expected_product" (.b popupHas)
          if pageHas && popupHas then
            let d2 := aset d "conclusion" (.s "Product mapping correct - Bug may be fixed")
            ({ v1 with reproduced := false, details := d2 }, none)
          else if pageHas && !popupHas then
            let d2 := aset d "conclusion" (.s "Product mapping incorrect - Popup shows wrong product")
            ({ v1 with reproduced := true, details := d2 }, none)
          else
            let d2 := aset d "conclusion" (.s "Cannot determine product mapping accuracy")
            ({ v1 with details := d2 }, none)
    else
      let d2 := aset v1.details "conclusion" (.s "Could not trigger popup to test content mapping")
      ({ v1 with details := d2 }, none)

def validate_bug_007 (st : DataManagerState) (o : Bug007Oracle)
    (expected_product : String) : DataManagerState × BugVerdict :=
  let v := applyExc (bug007_body o expected_product).1 (bug007_body o expected_product).2
  ({ st with bug_reproductions := aset st.bug_reproductions "BUG007" v }, v)

/-- Observable behaviour of one `validate_bug_008_close_functionality` run:
the trigger click, the three `is_popup_visible` checks (before the close,
between the close and the outside-click section, and after the outside
click), the close-button click and the outside click.  Every one of these
`PopupPage` methods converts driver failures into a boolean return, so under
the Selenium error contract no exception can surface in this validator. -/
structure Bug008Oracle where
  trigger : Bool
  visBefore : Bool
  closeClick : Bool
  visAfter : Bool
  visMid : Bool
  outsideClick : Bool
  visAfterOutside : Bool
  deriving Repr, DecidableEq

/-- The `try` block of `validate_bug_008_close_functionality`
(`data_manager.py` lines 347-415). -/
def bug008_body (o : Bug008Oracle) : BugVerdict :=
  let v0 : BugVerdict :=
    ⟨"BUG008", "UX Critical - Pop-up close buttons not working", false, []⟩
  if o.trigger then
    let v1 := { v0 with
      details := aset v0.details "popup_visible_before_close" (.b o.visBefore) }
    let vX :=
      if o.visBefore then
        let v2 := { v1 with
          details := aset v1.details "close_button_clicked" (.b o.closeClick) }
        if o.closeClick then
          let v3 := { v2 with
            details := aset v2.details "popup_visible_after_close" (.b o.visAfter) }
          if o.visAfter then
            let d := aset v3.details "x_button_conclusion"
              (.s "X button not working - popup still visible")
            { v3 with reproduced := true, details := d }
          else
            let d := aset v3.details "x_button_conclusion"
              (.s "X button working - popup closed")
            { v3 with details := d }
        else
          let d := aset v2.details "x_button_conclusion" (.s "X button not clickable")
          { v2 with reproduced := true, details := d }
      else v1
    let vY :=
      if o.visMid then
        let v4 := { vX with
          details := aset vX.details "outside_click_attempted" (.b o.outsideClick) }
        if o.outsideClick then
          let v5 := { v4 with
            details := aset v4.details "popup_visible_after_outside_click"
              (.b o.visAfterOutside) }
          if o.visAfterOutside then
            let d := aset v5.details "outside_click_conclusion" (.s "Outside click not working")
            { v5 with reproduced := true, details := d }
          else
            let d := aset v5.details "outside_click_conclusion" (.s "Outside click working")
            { v5 with details := d }
        else v4
      else vX
    if vY.reproduced then
      let d := aset vY.details "conclusion" (.s "Close functionality not working properly")
      { vY with details := d }
    else
      let d := aset vY.details "conclusion" (.s "Close functionality working - Bug may be fixed")
      { vY with details := d }
  else
    let d := aset v0.details "conclusion" (.s "Could not trigger popup to test close functionality")
    { v0 with details := d }

def validate_bug_008 (st : DataManagerState) (o : Bug008Oracle) :
    DataManagerState × BugVerdict :=
  let v := bug008_body o
  ({ st with bug_reproductions := aset st.bug_reproductions "BUG008" v }, v)

end DataManager

namespace RunTests

/-- The parsed `summary` block of the pytest JSON report. -/
structure PytestSummary where
  total : Nat
  passed : Nat
  failed : Nat
  skipped : Nat
  deriving Repr, DecidableEq

/-- What happens with the JSON report file after the run: it does not exist,
it parses, or reading/parsing raises (which only prints a warning). -/
inductive JsonReportOutcome where
  | absent
  | parsed (s : PytestSummary)
  | parseError (msg : String)
  deriving Repr, DecidableEq

/-- Outcome of the `subprocess.run(cmd, ..., timeout=1800)` call inside
`_execute_pytest_command`: the process completes with an exit code and
captured output, exceeds the time cap (`subprocess.TimeoutExpired`), or the
invocation raises some other exception. -/
inductive SubprocOutcome where
  | completed (returncode : Int) (stdout stderr : String)
  | timedOut
  | crashed (msg : String)
  deriving Repr, DecidableEq

/-- The hardcoded subprocess time cap (seconds). -/
def pytest_timeout_cap : ℚ := 1800

/-- The dictionary `_execute_pytest_command` returns (`run_tests.py` lines
285-357); fields absent from a branch are `none`. -/
structure TestRunResult where
  return_code : Int
  execution_time : ℚ
  stdout : Option String
  stderr : Option String
  success : Bool
  error : Option String
  summary : Option PytestSummary
  deriving Repr, DecidableEq

/-- `TestRunner._execute_pytest_command` (`run_tests.py` lines 285-357):
classifies the subprocess outcome; `elapsed` is the measured wall-clock
duration of a completed run. -/
def _execute_pytest_command (sub : SubprocOutcome) (elapsed : ℚ)
    (js : JsonReportOutcome) : TestRunResult :=
  match sub with
  | .completed rc out err =>
    { return_code := rc, execution_time := round2 elapsed, stdout := some out,
      stderr := some err, success := decide (rc = 0), error := none,
      summary := match js with | .parsed s => some s | _ => none }
  | .timedOut =>
    { return_code := -1, execution_time := pytest_timeout_cap, stdout := none,
      stderr := none, success := false, error := some "Timeout", summary := none }
  | .crashed m =>
    { return_code := -1, execution_time := 0, stdout := none, stderr := none,
      success := false, error := some m, summary := none }

end RunTests

namespace BasePage

theorem retryAux_invocations_le (tr : PyErr → Bool) (out : Nat → Outcome α) :
    ∀ r i, (retryAux tr out i r).invocations ≤ r := by
  intro r
  induction r with
  | zero => intro i; simp [retryAux]
  | succ n ih =>
    intro i
    simp only [retryAux]
    cases out i with
    | ok a => simp
    | exn e =>
      by_cases h : tr e
      · simp only [h, if_true]
        by_cases hn : n = 0
        · simp [hn]
        · simp only [hn, if_false]
          exact Nat.succ_le_succ (ih (i + 1))
      · simp [h]

theorem retryAux_step (tr : PyErr → Bool) (out : Nat → Outcome α) (i n : Nat)
    (e0 : PyErr) (he0 : out i = .exn e0) (htr0 : tr e0 = true) (hn : n ≠ 0) :
    retryAux tr out i (n + 1) =
      ⟨(retryAux tr out (i + 1) n).result,
       (retryAux tr out (i + 1) n).invocations + 1,
       (retryAux tr out (i + 1) n).sleeps + 1⟩ := by
  simp [retryAux, he0, htr0, hn]

theorem retryAux_last_transient (tr : PyErr → Bool) (out : Nat → Outcome α)
    (i : Nat) (e0 : PyErr) (he0 : out i = .exn e0) (htr0 : tr e0 = true) :
    retryAux tr out i 1 = ⟨.error e0, 1, 0⟩ := by
  simp [retryAux, he0, htr0]

theorem retryAux_nontransient_step (tr : PyErr → Bool) (out : Nat → Outcome α)
    (i r : Nat) (e : PyErr) (he0 : out i = .exn e) (he : tr e = false) :
    retryAux tr out i (r + 1) = ⟨.error e, 1, 0⟩ := by
  simp [retryAux, he0, he]

theorem retryAux_all_transient (tr : PyErr → Bool) (out : Nat → Outcome α) :
    ∀ r i, 1 ≤ r →
    (∀ k, k < r → ∃ e, out (i + k) = .exn e ∧ tr e = true) →
    (retryAux tr out i r).invocations = r ∧
    (retryAux tr out i r).sleeps = r - 1 ∧
    ∀ e, out (i + (r - 1)) = .exn e →
      (retryAux tr out i r).result = .error e := by
  intro r
  induction r with
  | zero => intro i h; omega
  | succ n ih =>
    intro i _ hall
    obtain ⟨e0, he0, htr0⟩ := hall 0 (Nat.succ_pos n)
    simp only [Nat.add_zero] at he0
    by_cases hn : n = 0
    · subst hn
      rw [retryAux_last_transient tr out i e0 he0 htr0]
      refine ⟨rfl, rfl, ?_⟩
      intro e he
      have he' : out i = Outcome.exn e := by simpa using he
      rw [he0] at he'
      injection he' with h
      subst h
      rfl
    · have ih' := ih (i + 1) (Nat.one_le_iff_ne_zero.mpr hn)
        (by
          intro k hk
          have := hall (k + 1) (by omega)
          simpa [Nat.add_comm, Nat.add_assoc, Nat.add_left_comm] using this)
      rw [retryAux_step tr out i n e0 he0 htr0 hn]
      refine ⟨?_, ?_, ?_⟩
      · show (retryAux tr out (i + 1) n).invocations + 1 = n + 1
        rw [ih'.1]
      · show (retryAux tr out (i + 1) n).sleeps + 1 = n + 1 - 1
        rw [ih'.2.1]
        omega
      · intro e he
        have harg : i + 1 + (n - 1) = i + (n + 1 - 1) := by omega
        exact ih'.2.2 e (by rw [harg]; exact he)

theorem retryAux_nontransient (tr : PyErr → Bool) (out : Nat → Outcome α) (e : PyErr)
    (he : tr e = false) :
    ∀ j r i, j < r →
    (∀ k, k < j → ∃ e', out (i + k) = .exn e' ∧ tr e' = true) →
    out (i + j) = .exn e →
    retryAux tr out i r = ⟨.error e, j + 1, j⟩ := by
  intro j
  induction j with
  | zero =>
    intro r i hr _ hout
    simp only [Nat.add_zero] at hout
    obtain ⟨r', rfl⟩ : ∃ r', r = r' + 1 := ⟨r - 1, by omega⟩
    exact retryAux_nontransient_step tr out i r' e hout he
  | succ m ih =>
    intro r i hr hprev hout
    obtain ⟨r', rfl⟩ : ∃ r', r = r' + 1 := ⟨r - 1, by omega⟩
    obtain ⟨e0, he0, htr0⟩ := hprev 0 (Nat.succ_pos m)
    simp only [Nat.add_zero] at he0
    have hr' : r' ≠ 0 := by omega
    have recur := ih r' (i + 1) (by omega)
      (by
        intro k hk
        have := hprev (k + 1) (by omega)
        simpa [Nat.add_comm, Nat.add_assoc, Nat.add_left_comm] using this)
      (by
        have harg : i + 1 + m = i + (m + 1) := by omega
        rw [harg]; exact hout)
    rw [retryAux_step tr out i r' e0 he0 htr0 hr', recur]

/-- Claim C2: a function wrapped by `retry_on_failure(max_attempts, delay)` is
invoked at most `max_attempts` times, whatever the outcome sequence; and when
there is at least one attempt and every attempt raises an error from the
retried (`exceptions`) set, the wrapper performs exactly `max_attempts`
invocations and finally re-raises exactly the error of the last attempt. -/
theorem retry_attempts_bounded_and_last_error_propagated
    (maxAttempts : Nat) (tr : PyErr → Bool) (out : Nat → Outcome α) :
    (retry_on_failure maxAttempts tr out).invocations ≤ maxAttempts ∧
    (1 ≤ maxAttempts →
      (∀ k, k < maxAttempts → ∃ e, out k = .exn e ∧ tr e = true) →
      (retry_on_failure maxAttempts tr out).invocations = maxAttempts ∧
      ∀ e, out (maxAttempts - 1) = .exn e →
        (retry_on_failure maxAttempts tr out).result = .error e) := by
  constructor
  · exact retryAux_invocations_le tr out maxAttempts 0
  · intro hpos hall
    have h := retryAux_all_transient tr out maxAttempts 0 hpos
      (by intro k hk; simpa using hall k hk)
    exact ⟨h.1, by intro e he; exact h.2.2 e (by simpa using he)⟩

/-- Witness for C2 at a concrete run: three attempts, all raising timeouts. -/
theorem retry_attempts_bounded_and_last_error_propagated_witness :
    (retry_on_failure (α := Nat) 3 defaultTransient
        (fun k => .exn (.timeout (toString k)))).invocations = 3 ∧
    (retry_on_failure (α := Nat) 3 defaultTransient
        (fun k => .exn (.timeout (toString k)))).result = .error (.timeout "2") := by
  have h := retry_attempts_bounded_and_last_error_propagated (α := Nat) 3
    defaultTransient (fun k => .exn (.timeout (toString k)))
  have h2 := h.2 (by decide) (by intro k _; exact ⟨.timeout (toString k), rfl, rfl⟩)
  exact ⟨h2.1, h2.2 (.timeout "2") rfl⟩

/-- Claim C8: if the first `j` invocations raise retried (transient) errors and
invocation `j` (with `j < max_attempts`) raises an error outside the transient
set, the wrapper stops there: the error propagates unchanged, the function is
not invoked again (exactly `j + 1` invocations), and no delay follows the
non-transient error (exactly `j` sleeps, one per preceding transient retry).
Stated for the default transient set
`(TimeoutException, StaleElementReferenceException)`. -/
theorem retry_nontransient_propagates_immediately
    (maxAttempts j : Nat) (out : Nat → Outcome α) (e : PyErr)
    (hj : j < maxAttempts) (he : defaultTransient e = false)
    (hout : out j = .exn e)
    (hprev : ∀ k, k < j → ∃ e', out k = .exn e' ∧ defaultTransient e' = true) :
    retry_on_failure maxAttempts defaultTransient out =
      ⟨.error e, j + 1, j⟩ := by
  exact retryAux_nontransient defaultTransient out e he j maxAttempts 0 hj
    (by intro k hk; simpa using hprev k hk) (by simpa using hout)

/-- Witness for C8: the first attempt raises a WebDriverException that is not
in the transient set; it propagates with one invocation and no sleep. -/
theorem retry_nontransient_propagates_immediately_witness :
    retry_on_failure (α := Nat) 3 defaultTransient
        (fun _ => .exn (.webdriver "malformed locator")) =
      ⟨.error (.webdriver "malformed locator"), 1, 0⟩ := by
  exact retry_nontransient_propagates_immediately 3 0
    (fun _ => .exn (.webdriver "malformed locator"))
    (.webdriver "malformed locator") (by decide) (by decide) rfl
    (by intro k hk; omega)

/-- Counterexample to claim C3: `is_element_visible` is claimed never to raise
regardless of the browser collaborator, but when the wait raises a non-timeout
driver error the function propagates it; so the universal no-raise statement
is false. -/
theorem is_element_visible_raises_cex :
    is_element_visible (.raised (.webdriver "invalid session id")) =
      .error (.webdriver "invalid session id") ∧
    ¬ ∀ w, isOkB (is_element_visible w) = true := by
  refine ⟨rfl, ?_⟩
  intro h
  have := h (.raised (.webdriver "x"))
  simp [is_element_visible, isOkB] at this

/-- Claim C3 (amended): for a positive caller-supplied timeout `T` the wait
runs with exactly `T`; whenever the wait does not raise a non-timeout driver
error, `is_element_visible` returns normally, with `false` exactly when the
element did not become visible within the timeout (a timeout is swallowed,
never raised); a non-timeout driver error, however, propagates to the caller. -/
theorem is_element_visible_false_iff_not_visible
    (w : VisibilityWaitOutcome) (t d : Nat) (ht : 0 < t)
    (hw : ∀ e, w ≠ .raised e) :
    effectiveTimeout (some t) d = t ∧
    isOkB (is_element_visible w) = true ∧
    ((is_element_visible w = .ok false) ↔ w ≠ .visible) ∧
    ((is_element_visible w = .ok true) ↔ w = .visible) := by
  refine ⟨by simp [effectiveTimeout]; omega, ?_⟩
  cases w with
  | visible => simp [is_element_visible, isOkB]
  | timedOut => simp [is_element_visible, isOkB]
  | raised e => exact absurd rfl (hw e)

/-- Witness for the amended C3 at the timeout outcome with T = 10. -/
theorem is_element_visible_false_iff_not_visible_witness :
    (is_element_visible .timedOut = .ok false) ↔
      VisibilityWaitOutcome.timedOut ≠ .visible := by
  exact (is_element_visible_false_iff_not_visible .timedOut 10 15 (by decide)
    (by intro e h; cases h)).2.2.1

end BasePage

namespace PopupPage

/-- Counterexample to claim C5: the string `" user@example.com "` does not
match the anchored regex (it starts with a space), yet `submit_email_form`
does not return false at validation: with cooperative sub-call outcomes it
proceeds through all four browser sub-steps and returns true, because
`_is_valid_email` strips the argument before matching. -/
theorem submit_email_form_unmatched_string_accepted_cex :
    reMatchEmail " user@example.com " = false ∧
    (submit_email_form initialPopupState (.pyStr " user@example.com ") true
        ⟨.visible, .visible, .entered, .clicked⟩).2.1 = true ∧
    (submit_email_form initialPopupState (.pyStr " user@example.com ") true
        ⟨.visible, .visible, .entered, .clicked⟩).2.2 =
      [SubStep.waitPopup, SubStep.checkVisible, SubStep.enterEmail,
        SubStep.clickSubmit] := by
  refine ⟨by decide, by decide, by decide⟩

/-- Claim C5 (amended): `submit_email_form` validates the email before any
browser interaction against the anchored pattern applied to the stripped
argument (not to the raw string): any argument whose stripped form fails the
pattern yields `False` with reason `invalid_email` and an empty sub-step
trace; `"not-an-email"` and `""` are rejected while `"user@example.com"`
passes; and the composite fails fast, stopping with `False` and the recorded
reason at the first failed sub-step with no later sub-step attempted. -/
theorem submit_email_form_fail_fast (st : PopupState) (email : PyValue)
    (o : SubmitOracle) :
    (∀ wfp, _is_valid_email email = false →
      submit_email_form st email wfp o =
        (_update_popup_state st "submit_form" false (reasonKw "invalid_email"),
          false, [])) ∧
    (_is_valid_email (.pyStr "not-an-email") = false ∧
      _is_valid_email (.pyStr "") = false ∧
      _is_valid_email (.pyStr "user@example.com") = true) ∧
    (_is_valid_email email = true →
      (∀ st1, wait_for_popup_to_appear st o.waitOutcome = (st1, false) →
        submit_email_form st email true o =
          (_update_popup_state st1 "submit_form" false (reasonKw "popup_not_appeared"),
            false, [SubStep.waitPopup])) ∧
      (∀ st1 st2, wait_for_popup_to_appear st o.waitOutcome = (st1, true) →
        is_popup_visible st1 o.visOutcome = (st2, false) →
        submit_email_form st email true o =
          (_update_popup_state st2 "submit_form" false (reasonKw "popup_not_visible"),
            false, [SubStep.waitPopup, SubStep.checkVisible])) ∧
      (∀ st1 st2 st3 e, wait_for_popup_to_appear st o.waitOutcome = (st1, true) →
        is_popup_visible st1 o.visOutcome = (st2, true) →
        enter_email st2 email o.enter = (st3, .error e) →
        submit_email_form st email true o =
          (_update_popup_state st3 "submit_form" false (errKw (errText e)),
            false, [SubStep.waitPopup, SubStep.checkVisible, SubStep.enterEmail])) ∧
      (∀ st1 st2 st3 st4 e, wait_for_popup_to_appear st o.waitOutcome = (st1, true) →
        is_popup_visible st1 o.visOutcome = (st2, true) →
        enter_email st2 email o.enter = (st3, .ok true) →
        click_submit_button st3 o.submit = (st4, .error e) →
        submit_email_form st email true o =
          (_update_popup_state st4 "submit_form" false (errKw (errText e)),
            false, [SubStep.waitPopup, SubStep.checkVisible, SubStep.enterEmail,
              SubStep.clickSubmit]))) := by
  refine ⟨?_, ⟨by decide, by decide, by decide⟩, ?_⟩
  · intro wfp hv
    simp [submit_email_form, hv]
  · intro hv
    refine ⟨?_, ?_, ?_, ?_⟩
    · intro st1 hw
      simp [submit_email_form, hv, hw]
    · intro st1 st2 hw hvis
      simp [submit_email_form, hv, hw, submitAfterWait, hvis]
    · intro st1 st2 st3 e hw hvis hen
      simp [submit_email_form, hv, hw, submitAfterWait, hvis, submitAfterVisible, hen]
    · intro st1 st2 st3 st4 e hw hvis hen hcs
      simp [submit_email_form, hv, hw, submitAfterWait, hvis, submitAfterVisible,
        hen, submitAfterEnter, hcs]

/-- Witness for the amended C5: a valid email with a popup wait that times
out stops after the first sub-step. -/
theorem submit_email_form_fail_fast_witness :
    submit_email_form initialPopupState (.pyStr "user@example.com") true
        ⟨.timedOut, .visible, .entered, .clicked⟩ =
      (_update_popup_state
          (wait_for_popup_to_appear initialPopupState .timedOut).1
          "submit_form" false (reasonKw "popup_not_appeared"),
        false, [SubStep.waitPopup]) := by
  exact ((submit_email_form_fail_fast initialPopupState (.pyStr "user@example.com")
      ⟨.timedOut, .visible, .entered, .clicked⟩).2.2 (by decide)).1
    (wait_for_popup_to_appear initialPopupState .timedOut).1 (by decide)

/-- Claim C10: `_is_valid_email` strips the argument before matching the
anchored pattern, so any nonempty string whose stripped form matches is
accepted (for example `" user@example.com "`, which the raw anchored pattern
rejects), and both `enter_email` and `submit_email_form` then proceed to
browser interaction with it; `None`, non-string values and the empty string
yield `False` without raising. -/
theorem is_valid_email_strips_before_matching :
    (∀ s : String, s ≠ "" → _is_valid_email (.pyStr s) = reMatchEmail (pyStrip s)) ∧
    reMatchEmail " user@example.com " = false ∧
    _is_valid_email (.pyStr " user@example.com ") = true ∧
    (enter_email initialPopupState (.pyStr " user@example.com ") .entered).2 =
      .ok true ∧
    (submit_email_form initialPopupState (.pyStr " user@example.com ") true
        ⟨.visible, .visible, .entered, .clicked⟩).2.2 ≠ [] ∧
    _is_valid_email .pyNone = false ∧
    _is_valid_email .pyOther = false ∧
    _is_valid_email (.pyStr "") = false := by
  refine ⟨?_, by decide, by decide, rfl, by decide, rfl, rfl, by decide⟩
  intro s hs
  simp [_is_valid_email, hs]

/-- Witness for C10 at a concrete nonempty string. -/
theorem is_valid_email_strips_before_matching_witness :
    _is_valid_email (.pyStr "abc") = reMatchEmail (pyStrip "abc") := by
  exact is_valid_email_strips_before_matching.1 "abc" (by decide)

theorem popupCallRun_error_count (st : PopupState) (c : PopupCall) :
    (popupCallRun st c).error_count =
      st.error_count +
        (match popupCallRecorded c with | some false => 1 | _ => 0) := by
  cases c with
  | trigger o =>
    cases o <;>
      simp [popupCallRun, popupCallRecorded, click_show_instantly_button,
        _update_popup_state]
  | close o =>
    cases o <;>
      simp [popupCallRun, popupCallRecorded, click_close_button,
        _update_popup_state]
  | dismiss p o =>
    cases p <;> cases o <;>
      simp [popupCallRun, popupCallRecorded, dismiss_popup,
        _update_popup_state]
  | outside p o s =>
    cases p <;> cases o <;> cases s <;>
      simp [popupCallRun, popupCallRecorded, click_outside_popup,
        _update_popup_state]

theorem popupCallRun_recorded (st : PopupState) (c : PopupCall) (b : Bool)
    (h : popupCallRecorded c = some b) :
    (popupCallRun st c).last_success = some b ∧
    (popupCallRun st c).last_action = some (callActionName c) := by
  cases c with
  | trigger o =>
    cases o <;>
      simp_all [popupCallRun, popupCallRecorded, callActionName,
        click_show_instantly_button, _update_popup_state]
  | close o =>
    cases o <;>
      simp_all [popupCallRun, popupCallRecorded, callActionName,
        click_close_button, _update_popup_state]
  | dismiss p o =>
    cases p <;> cases o <;>
      simp_all [popupCallRun, popupCallRecorded, callActionName,
        dismiss_popup, _update_popup_state]
  | outside p o s =>
    cases p <;> cases o <;> cases s <;>
      simp_all [popupCallRun, popupCallRecorded, callActionName,
        click_outside_popup, _update_popup_state]

theorem popupCallRun_none_unchanged (st : PopupState) (c : PopupCall)
    (h : popupCallRecorded c = none) :
    popupCallRun st c = st ∧ ∃ p o e, c = .dismiss p o ∧ p = .raised e := by
  cases c with
  | trigger o => cases o <;> simp_all [popupCallRecorded]
  | close o => cases o <;> simp_all [popupCallRecorded]
  | dismiss p o =>
    cases p <;> cases o <;> simp_all [popupCallRecorded, popupCallRun, dismiss_popup]
  | outside p o s =>
    cases p <;> cases o <;> cases s <;> simp_all [popupCallRecorded]

/-- Counterexample to claim C4: the parenthetical "every such call updates
`last_action` and `last_success` regardless of outcome" fails.  When the
close-button presence probe inside `dismiss_popup` raises a driver error
other than `NoSuchElementException`, the exception escapes and the popup
state is left untouched: starting from the initial state, `last_action`
stays `None` instead of becoming `dismiss`. -/
theorem popup_dismiss_no_update_cex :
    popupCallRun initialPopupState
        (.dismiss (.raised (.webdriver "session deleted")) .clicked) =
      initialPopupState ∧
    (popupCallRun initialPopupState
        (.dismiss (.raised (.webdriver "session deleted")) .clicked)).last_action ≠
      some "dismiss" ∧
    (dismiss_popup initialPopupState (.raised (.webdriver "session deleted"))
        .clicked).2 = .error (.webdriver "session deleted") := by
  refine ⟨rfl, by decide, rfl⟩

/-- Claim C4 (amended): across any sequence of trigger / close-button /
dismiss / outside-click calls, `error_count` is monotonically non-decreasing,
and each call increases it by exactly 1 iff that call records
`last_success = false`; every call that performs an update sets `last_action`
to its action name and `last_success` to the recorded flag; the only call
that can skip the update is `dismiss_popup` when its close-button presence
probe raises a non-`NoSuchElementException` driver error, and then the state
is completely unchanged. -/
theorem popup_error_count_invariant (st : PopupState) (c : PopupCall) :
    ((popupCallRun st c).error_count = st.error_count + 1 ↔
      popupCallRecorded c = some false) ∧
    (∀ b, popupCallRecorded c = some b →
      (popupCallRun st c).last_success = some b ∧
      (popupCallRun st c).last_action = some (callActionName c)) ∧
    (popupCallRecorded c = none →
      popupCallRun st c = st ∧ ∃ p o e, c = .dismiss p o ∧ p = .raised e) ∧
    (∀ cs : List PopupCall,
      st.error_count ≤ (cs.foldl popupCallRun st).error_count) := by
  refine ⟨?_, fun b h => popupCallRun_recorded st c b h,
    fun h => popupCallRun_none_unchanged st c h, ?_⟩
  · rw [popupCallRun_error_count st c]
    match h : popupCallRecorded c with
    | some true => simp
    | some false => simp
    | none => simp
  · intro cs
    induction cs generalizing st with
    | nil => simp
    | cons d ds ih =>
      calc st.error_count ≤ (popupCallRun st d).error_count := by
            rw [popupCallRun_error_count st d]; omega
        _ ≤ (ds.foldl popupCallRun (popupCallRun st d)).error_count := ih _
        _ = ((d :: ds).foldl popupCallRun st).error_count := by simp

/-- Witness for C4 at a concrete call: a failed trigger click increments
`error_count` from 0 to 1 and records `last_success = false`. -/
theorem popup_error_count_invariant_witness :
    (popupCallRun initialPopupState (.trigger (.interactionErr "boom"))).error_count =
      initialPopupState.error_count + 1 ∧
    (popupCallRun initialPopupState (.trigger (.interactionErr "boom"))).last_success =
      some false := by
  have h := popup_error_count_invariant initialPopupState
    (.trigger (.interactionErr "boom"))
  exact ⟨h.1.mpr rfl, (h.2.1 false rfl).1⟩


end PopupPage

theorem aget_aset_self (d : List (String × β)) (k : String) (v : β) :
    aget (aset d k v) k = some v := by
  induction d with
  | nil => simp [aset, aget]
  | cons kv rest ih =>
    obtain ⟨k0, v0⟩ := kv
    by_cases hk : k0 = k <;> simp [aset, aget, hk, ih]

namespace DataManager

theorem applyExc_reproduced (v : BugVerdict) (x : Option PyErr) :
    (applyExc v x).reproduced = v.reproduced := by
  cases x <;> rfl

theorem bug001_exc_reproduced_false (o : Bug001Oracle) (e : PyErr)
    (h : (bug001_body o).2 = some e) : (bug001_body o).1.reproduced = false := by
  rcases o with ⟨g1, p1, g2, p2⟩
  cases g1 <;> cases p1 <;> cases g2 <;> cases p2 <;>
    simp_all [bug001_body, probeRes, bug001_init]

theorem bug002_scan_exc_reproduced_false (o : Bug002Oracle) (e : PyErr) :
    ∀ (l : List ProbeOutcome) (v : BugVerdict), v.reproduced = false →
    (bug002_scan o v l).2 = some e → (bug002_scan o v l).1.reproduced = false := by
  intro l
  induction l with
  | nil => intro v hv h; simp_all [bug002_scan]
  | cons p rest ih =>
    intro v hv h
    cases p with
    | raised e0 => simp_all [bug002_scan, probeRes]
    | timedOut =>
      simp only [bug002_scan, probeRes] at h ⊢
      exact ih v hv h
    | found =>
      simp only [bug002_scan, probeRes] at h ⊢
      cases hc : o.click with
      | none =>
        simp only [hc] at h ⊢
        split at h <;> simp_all
      | some e0 => cases e0 <;> simp_all

theorem bug002_exc_reproduced_false (o : Bug002Oracle) (e : PyErr)
    (h : (bug002_body o).2 = some e) : (bug002_body o).1.reproduced = false := by
  by_cases ht : o.trigger
  · simp only [bug002_body, ht, if_true] at h ⊢
    exact bug002_scan_exc_reproduced_false o e _ _ rfl h
  · simp_all [bug002_body]

theorem bug007_exc_reproduced_false (o : Bug007Oracle) (p : String) (e : PyErr)
    (h : (bug007_body o p).2 = some e) : (bug007_body o p).1.reproduced = false := by
  rcases o with ⟨pt, tr, pc, ptl⟩
  cases pt with
  | error e0 => rfl
  | ok s =>
    cases tr with
    | false => simp [bug007_body] at h
    | true =>
      cases pc with
      | error e0 => rfl
      | ok c =>
        cases ptl with
        | error e0 => rfl
        | ok t =>
          exfalso
          simp only [bug007_body] at h
          split at h
          all_goals try split at h
          all_goals try split at h
          all_goals simp at h

/-- Counterexample to claim C1: when an exception interrupts the validation
steps, the `except Exception` handler only records `details["error"]`; no
conclusion string is written.  Concretely, when the first Add-to-Cart
visibility probe of `validate_bug_002_add_to_cart` raises a non-timeout
driver error, the stored verdict has `reproduced = false` and
`details["error"]` set but no `conclusion` entry at all, contradicting the
claimed "inconclusive conclusion string". -/
theorem validator_exception_missing_conclusion_cex :
    ((validate_bug_002 initialDMState
        ⟨0, true, .raised (.webdriver "boom"), .found, .found, .found, none, 0⟩).2).reproduced
        = false ∧
    aget ((validate_bug_002 initialDMState
        ⟨0, true, .raised (.webdriver "boom"), .found, .found, .found, none, 0⟩).2).details
        "error" = some (.s "boom") ∧
    aget ((validate_bug_002 initialDMState
        ⟨0, true, .raised (.webdriver "boom"), .found, .found, .found, none, 0⟩).2).details
        "conclusion" = none ∧
    aget (validate_bug_002 initialDMState
        ⟨0, true, .raised (.webdriver "boom"), .found, .found, .found, none, 0⟩).1.bug_reproductions
        "BUG002" = some ((validate_bug_002 initialDMState
        ⟨0, true, .raised (.webdriver "boom"), .found, .found, .found, none, 0⟩).2) := by
  refine ⟨by decide, by decide, by decide, by decide⟩

/-- Claim C1 (amended): every validator call returns normally (the embedded
functions are total, mirroring the `except Exception` handlers) and always
stores its verdict in `bug_reproductions` under its bug id; whenever an
exception interrupts the validation steps of
`validate_bug_001_url_dependency`, `validate_bug_002_add_to_cart` or
`validate_bug_007_content_mapping`, the stored verdict keeps `reproduced` at
its default `false` and has `details["error"]` populated with the exception
text (but no conclusion entry beyond the fields recorded before the
exception).  Under the Selenium error contract no exception can surface
inside `validate_bug_006_performance` or
`validate_bug_008_close_functionality`, whose sub-calls all convert driver
failures into booleans, so for them the exception clause is vacuous. -/
theorem validators_convert_exceptions_to_verdicts
    (st : DataManagerState) (o1 : Bug001Oracle) (o2 : Bug002Oracle)
    (o6 : Bug006Oracle) (limit : ℚ) (o7 : Bug007Oracle) (p : String)
    (o8 : Bug008Oracle) :
    (∀ e, (bug001_body o1).2 = some e →
      (validate_bug_001 st o1).2.reproduced = false ∧
      aget (validate_bug_001 st o1).2.details "error" = some (.s (errText e))) ∧
    aget (validate_bug_001 st o1).1.bug_reproductions "BUG001" =
      some (validate_bug_001 st o1).2 ∧
    (∀ e, (bug002_body o2).2 = some e →
      (validate_bug_002 st o2).2.reproduced = false ∧
      aget (validate_bug_002 st o2).2.details "error" = some (.s (errText e))) ∧
    aget (validate_bug_002 st o2).1.bug_reproductions "BUG002" =
      some (validate_bug_002 st o2).2 ∧
    aget (validate_bug_006 st o6 limit).1.bug_reproductions "BUG006" =
      some (validate_bug_006 st o6 limit).2 ∧
    (∀ e, (bug007_body o7 p).2 = some e →
      (validate_bug_007 st o7 p).2.reproduced = false ∧
      aget (validate_bug_007 st o7 p).2.details "error" = some (.s (errText e))) ∧
    aget (validate_bug_007 st o7 p).1.bug_reproductions "BUG007" =
      some (validate_bug_007 st o7 p).2 ∧
    aget (validate_bug_008 st o8).1.bug_reproductions "BUG008" =
      some (validate_bug_008 st o8).2 := by
  refine ⟨?_, ?_, ?_, ?_, ?_, ?_, ?_, ?_⟩
  · intro e he
    constructor
    · show (applyExc (bug001_body o1).1 (bug001_body o1).2).reproduced = false
      rw [he, applyExc_reproduced]
      exact bug001_exc_reproduced_false o1 e he
    · show aget (applyExc (bug001_body o1).1 (bug001_body o1).2).details "error" = _
      rw [he]
      exact aget_aset_self _ _ _
  · exact aget_aset_self _ _ _
  · intro e he
    constructor
    · show (applyExc (bug002_body o2).1 (bug002_body o2).2).reproduced = false
      rw [he, applyExc_reproduced]
      exact bug002_exc_reproduced_false o2 e he
    · show aget (applyExc (bug002_body o2).1 (bug002_body o2).2).details "error" = _
      rw [he]
      exact aget_aset_self _ _ _
  · exact aget_aset_self _ _ _
  · exact aget_aset_self _ _ _
  · intro e he
    constructor
    · show (applyExc (bug007_body o7 p).1 (bug007_body o7 p).2).reproduced = false
      rw [he, applyExc_reproduced]
      exact bug007_exc_reproduced_false o7 p e he
    · show aget (applyExc (bug007_body o7 p).1 (bug007_body o7 p).2).details "error" = _
      rw [he]
      exact aget_aset_self _ _ _
  · exact aget_aset_self _ _ _
  · exact aget_aset_self _ _ _

/-- Witness for the amended C1: a `driver.get` failure in the URL-dependency
validator and an `ElementNotFoundException` escaping the popup-content
getter in the content-mapping validator each yield a stored verdict with
`reproduced = false` and the error text recorded. -/
theorem validators_convert_exceptions_to_verdicts_witness :
    (validate_bug_001 initialDMState
        ⟨some (.webdriver "net::ERR_NAME_NOT_RESOLVED"), .found, none, .found⟩).2.reproduced
      = false ∧
    aget (validate_bug_001 initialDMState
        ⟨some (.webdriver "net::ERR_NAME_NOT_RESOLVED"), .found, none, .found⟩).2.details
        "error" = some (.s "net::ERR_NAME_NOT_RESOLVED") ∧
    (validate_bug_007 initialDMState
        ⟨.ok "Sample Mug", true,
          .error (.notFound "Element not found within 15s: Popup main content area"),
          .ok ""⟩ "Mug").2.reproduced = false ∧
    aget (validate_bug_007 initialDMState
        ⟨.ok "Sample Mug", true,
          .error (.notFound "Element not found within 15s: Popup main content area"),
          .ok ""⟩ "Mug").2.details "error" =
      some (.s "Element not found within 15s: Popup main content area") := by
  have h := validators_convert_exceptions_to_verdicts initialDMState
    ⟨some (.webdriver "net::ERR_NAME_NOT_RESOLVED"), .found, none, .found⟩
    ⟨0, true, .found, .found, .found, .found, none, 0⟩ ⟨true, true, 1⟩ 2
    ⟨.ok "Sample Mug", true,
      .error (.notFound "Element not found within 15s: Popup main content area"),
      .ok ""⟩ "Mug"
    ⟨true, true, true, false, false, false, false⟩
  have h1 := h.1 (.webdriver "net::ERR_NAME_NOT_RESOLVED") rfl
  have h7 := h.2.2.2.2.2.1
    (.notFound "Element not found within 15s: Popup main content area") rfl
  exact ⟨h1.1, h1.2, h7.1, h7.2⟩

/-- Counterexample to claim C6: `validate_bug_008_close_functionality` also
sets `reproduced = true` when the close-button click itself fails ("X button
not clickable"), a case the claimed iff does not cover: here the close click
returns false, no successful close or outside click is recorded, and yet the
verdict is reproduced. -/
theorem bug008_not_clickable_cex :
    (validate_bug_008 initialDMState
        ⟨true, true, false, true, false, false, false⟩).2.reproduced = true ∧
    aget (validate_bug_008 initialDMState
        ⟨true, true, false, true, false, false, false⟩).2.details
        "close_button_clicked" = some (.b false) ∧
    aget (validate_bug_008 initialDMState
        ⟨true, true, false, true, false, false, false⟩).2.details
        "popup_visible_after_close" = none ∧
    aget (validate_bug_008 initialDMState
        ⟨true, true, false, true, false, false, false⟩).2.details
        "outside_click_attempted" = none := by
  refine ⟨by decide, by decide, by decide, by decide⟩

/-- Claim C6 (amended): given a successful trigger,
`validate_bug_008_close_functionality` sets `reproduced = true` iff the
popup was visible before the close and either the close click failed or the
close click succeeded with the popup still visible afterwards, or the popup
was visible at the outside-click check and a successful outside click left
it visible; in the scenario popup-visible / close returns true / still
visible, the verdict is reproduced with the "X button not working" and
overall failure conclusions. -/
theorem bug008_reproduced_iff (st : DataManagerState) (o : Bug008Oracle) :
    ((validate_bug_008 st o).2.reproduced = true ↔
      (o.trigger = true ∧
        ((o.visBefore = true ∧
            (o.closeClick = false ∨ (o.closeClick = true ∧ o.visAfter = true))) ∨
          (o.visMid = true ∧ o.outsideClick = true ∧ o.visAfterOutside = true)))) ∧
    (o.trigger = true → o.visBefore = true → o.closeClick = true →
      o.visAfter = true →
      (validate_bug_008 st o).2.reproduced = true ∧
      aget (validate_bug_008 st o).2.details "x_button_conclusion" =
        some (.s "X button not working - popup still visible") ∧
      aget (validate_bug_008 st o).2.details "conclusion" =
        some (.s "Close functionality not working properly")) := by
  have hv : (validate_bug_008 st o).2 = bug008_body o := rfl
  rw [hv]
  rcases o with ⟨t, vb, cc, va, vm, oc, vao⟩
  cases t <;> cases vb <;> cases cc <;> cases va <;> cases vm <;> cases oc <;>
    cases vao <;> exact ⟨by decide, by decide⟩

/-- Witness for the amended C6 at the claimed scenario. -/
theorem bug008_reproduced_iff_witness :
    (validate_bug_008 initialDMState
        ⟨true, true, true, true, true, false, false⟩).2.reproduced = true ∧
    aget (validate_bug_008 initialDMState
        ⟨true, true, true, true, true, false, false⟩).2.details
        "x_button_conclusion" =
      some (.s "X button not working - popup still visible") := by
  have h := bug008_reproduced_iff initialDMState
    ⟨true, true, true, true, true, false, false⟩
  exact ⟨(h.2 rfl rfl rfl rfl).1, (h.2 rfl rfl rfl rfl).2.1⟩

/-- Claim C7: given a successful trigger click,
`validate_bug_006_performance` reproduces the bug iff the measured
trigger-to-visible time exceeds the supplied limit (default 2.0), and in
both cases the verdict details record the measured load time (rounded to two
decimals, as the source does) and the limit. -/
theorem bug006_reproduced_iff_limit_exceeded (st : DataManagerState)
    (o : Bug006Oracle) (limit : ℚ) (h : o.trigger = true) :
    ((validate_bug_006 st o limit).2.reproduced = true ↔ o.loadTime > limit) ∧
    aget (validate_bug_006 st o limit).2.details "load_time" =
      some (.q (round2 o.loadTime)) ∧
    aget (validate_bug_006 st o limit).2.details "expected_limit" =
      some (.q limit) ∧
    validate_bug_006_default st o = validate_bug_006 st o 2 := by
  have hv : (validate_bug_006 st o limit).2 = (bug006_body o limit).1 := rfl
  rw [hv]
  by_cases hlt : o.loadTime > limit <;>
    simp [bug006_body, h, hlt, validate_bug_006_default, aget, aset]

/-- Witness for C7: the measured 4.5-second latency against the default
2-second limit reproduces the bug. -/
theorem bug006_reproduced_iff_limit_exceeded_witness :
    (validate_bug_006 initialDMState ⟨true, true, 9 / 2⟩ 2).2.reproduced = true ∧
    aget (validate_bug_006 initialDMState ⟨true, true, 9 / 2⟩ 2).2.details
        "expected_limit" = some (.q 2) := by
  have h := bug006_reproduced_iff_limit_exceeded initialDMState
    ⟨true, true, 9 / 2⟩ 2 rfl
  exact ⟨h.1.mpr (by norm_num), h.2.2.1⟩

end DataManager

namespace RunTests

/-- Claim C9: `_execute_pytest_command` classifies the runner outcome and
never lets a process crash escape: exit code 0 is a success; a non-zero exit
code is a failure carrying the captured stdout and stderr; exceeding the
1800-second cap yields the distinct timeout failure shape (which differs
from every completed-run result); and any other exception from the
invocation becomes a failure result carrying the message. -/
theorem execute_pytest_classification (rc : Int) (out err : String)
    (elapsed : ℚ) (js : JsonReportOutcome) (m : String) :
    (_execute_pytest_command (.completed 0 out err) elapsed js).success = true ∧
    (rc ≠ 0 →
      (_execute_pytest_command (.completed rc out err) elapsed js).success = false ∧
      (_execute_pytest_command (.completed rc out err) elapsed js).stdout = some out ∧
      (_execute_pytest_command (.completed rc out err) elapsed js).stderr = some err) ∧
    (_execute_pytest_command .timedOut elapsed js).success = false ∧
    (_execute_pytest_command .timedOut elapsed js).error = some "Timeout" ∧
    (_execute_pytest_command .timedOut elapsed js).execution_time =
      pytest_timeout_cap ∧
    (_execute_pytest_command .timedOut elapsed js ≠
      _execute_pytest_command (.completed rc out err) elapsed js) ∧
    (_execute_pytest_command (.crashed m) elapsed js).success = false ∧
    (_execute_pytest_command (.crashed m) elapsed js).error = some m := by
  refine ⟨by simp [_execute_pytest_command], ?_, rfl, rfl, rfl, ?_, rfl, rfl⟩
  · intro hrc
    refine ⟨by simp [_execute_pytest_command, hrc], rfl, rfl⟩
  · intro hcontra
    have hst := congrArg TestRunResult.stdout hcontra
    simp [_execute_pytest_command] at hst

/-- Witness for C9 at exit code 1. -/
theorem execute_pytest_classification_witness :
    (_execute_pytest_command (.completed 1 "collected 12 items" "warnings")
        100 .absent).success = false ∧
    (_execute_pytest_command (.completed 1 "collected 12 items" "warnings")
        100 .absent).stdout = some "collected 12 items" := by
  have h := execute_pytest_classification 1 "collected 12 items" "warnings"
    100 .absent "oops"
  exact ⟨(h.2.1 (by decide)).1, (h.2.1 (by decide)).2.1⟩

end RunTests

end TestAutomation
